import Mathlib

/-!
Verification of the Excel2Word core (`src/e2w.py`) against its
natural-language specification.

The embedding models a pandas `DataFrame` as a `Dataset`: an ordered list of
column names and an ordered list of rows, each row a list of cell values
aligned positionally with the columns.  A cell value is a number, a string, or
the missing marker (pandas `NaN`).  Python-level operations used by the code
(`str(...)`, `.strip()`, `pd.notna`, `== 0`, `.split()`, `"\n".join`) are
embedded by small helper functions that reproduce their behaviour on this
value type.
-/

/-- A scalar cell value of the tabular dataset: a number, a text string, or
the missing marker (pandas `NaN`). -/
inductive Value where
  | num (n : Int)
  | str (s : String)
  | missing
deriving DecidableEq, Repr

/-- Python `str(v)` on a cell value: numbers render via decimal notation,
strings are themselves, and the missing marker (`float('nan')`) renders as
the text `nan`. -/
def pyStr : Value → String
  | .num n => toString n
  | .str s => s
  | .missing => "nan"

/-- `pd.notna(v)`: true unless the value is the missing marker. -/
def pyNotna : Value → Bool
  | .missing => false
  | _ => true

/-- Python `v == 0` on a cell value: true exactly for the number zero
(strings never compare equal to `0`, and `NaN == 0` is false). -/
def pyEqZero : Value → Bool
  | .num n => n == 0
  | _ => false

/-- The miss test of `generate_missed_homework_report` line 72:
`pd.notna(val) and val == 0`. -/
def isMiss (v : Value) : Bool := pyNotna v && pyEqZero v

/-- Leading- and trailing-whitespace removal on a character list. -/
def stripChars (l : List Char) : List Char :=
  ((l.dropWhile Char.isWhitespace).reverse.dropWhile Char.isWhitespace).reverse

/-- Python `s.strip()`: remove leading and trailing whitespace. -/
def pyStrip (s : String) : String := String.mk (stripChars s.data)

/-- The maximal non-whitespace runs of a character list (`acc` holds the
current run, reversed). -/
def wsRuns (acc : List Char) : List Char → List (List Char)
  | [] => if acc.isEmpty then [] else [acc.reverse]
  | c :: rest =>
    if c.isWhitespace then
      if acc.isEmpty then wsRuns [] rest else acc.reverse :: wsRuns [] rest
    else wsRuns (c :: acc) rest

/-- Python `s.split()` with no argument: split on whitespace runs, dropping
empty tokens. -/
def pySplit (s : String) : List String :=
  (wsRuns [] s.data).map String.mk

/-- Python `sep.join(l)`. -/
def pyJoin (sep : String) : List String → String
  | [] => ""
  | [s] => s
  | s :: rest => s ++ sep ++ pyJoin sep rest

/-- A tabular dataset (pandas `DataFrame`): ordered column names and ordered
rows, each row holding one value per column, positionally. -/
structure Dataset where
  columns : List String
  rows : List (List Value)
deriving DecidableEq, Repr

/-- `row[c]`: look the column name up in the dataset's column list and take
the row's value at that position. -/
def cellValue (cols : List String) (row : List Value) (c : String) : Value :=
  match cols.indexOf? c with
  | some i => row.getD i Value.missing
  | none => Value.missing

/-- The column-name configuration fed to `generate_missed_homework_report`
(its keyword parameters). -/
structure Config where
  firstNameCol : String
  lastNameCol : String
  groupCol : String
  emailCol : String
  scoresStartIndex : Nat
deriving DecidableEq, Repr

/-- The per-student output record of the extractor: the dict
`{name, group, email, missed}` built at lines 77–84 of `e2w.py`. -/
structure StudentRecord where
  name : String
  group : Value
  email : String
  missed : List String
deriving DecidableEq, Repr

/-- The two validation errors raised by `generate_missed_homework_report`
(both `ValueError` in Python, distinguished here by their content). -/
inductive E2WError where
  | missingColumns (missing : List String)
  | noAssignmentColumns (index : Nat)
deriving DecidableEq, Repr

/-- Code-point lexicographic comparison of character lists (Python string
`<=`). -/
def strLeChars : List Char → List Char → Bool
  | [], _ => true
  | _ :: _, [] => false
  | a :: as, b :: bs => if a = b then strLeChars as bs else decide (a < b)

/-- Python string `<=`. -/
def strLe (a b : String) : Bool := strLeChars a.data b.data

/-- Insert a string into a (sorted) list, keeping it sorted under `strLe`. -/
def insertSorted (x : String) : List String → List String
  | [] => [x]
  | y :: ys => if strLe x y then x :: y :: ys else y :: insertSorted x ys

/-- Python `sorted` on strings (used for the missing-column error message):
insertion sort under code-point order. -/
def sortStrings : List String → List String
  | [] => []
  | x :: xs => insertSorted x (sortStrings xs)

/-- The body of the row loop, lines 60–73 of `e2w.py`: build the student
record of one row (its `missed` list may be empty, in which case the caller
drops it). -/
def rowRecord (cols scoreCols : List String) (cfg : Config) (row : List Value) :
    StudentRecord :=
  let first := pyStrip (pyStr (cellValue cols row cfg.firstNameCol))
  let last := pyStrip (pyStr (cellValue cols row cfg.lastNameCol))
  { name := pyStrip (first ++ " " ++ last)
    group := cellValue cols row cfg.groupCol
    email := pyStrip (pyStr (cellValue cols row cfg.emailCol))
    missed := scoreCols.filter (fun c => isMiss (cellValue cols row c)) }

/-- The row loop of lines 59–84: process rows in order, keeping only the
records whose `missed` list is non-empty. -/
def processRows (cols scoreCols : List String) (cfg : Config) :
    List (List Value) → List StudentRecord
  | [] => []
  | row :: rest =>
    let r := rowRecord cols scoreCols cfg row
    if r.missed.isEmpty then processRows cols scoreCols cfg rest
    else r :: processRows cols scoreCols cfg rest

/-- The `required` set of line 46 of `e2w.py`: the four configured identity
column names, deduplicated. -/
def requiredCols (cfg : Config) : List String :=
  [cfg.firstNameCol, cfg.lastNameCol, cfg.groupCol, cfg.emailCol].dedup

/-- The `missing` set of line 47: required columns absent from the dataset. -/
def missingCols (df : Dataset) (cfg : Config) : List String :=
  (requiredCols cfg).filter (fun c => ¬ df.columns.contains c)

/-- The `score_columns` slice of line 51: `df.columns[scores_start_index:]`. -/
def scoreColumnsOf (df : Dataset) (cfg : Config) : List String :=
  df.columns.drop cfg.scoresStartIndex

/-- `generate_missed_homework_report` (lines 23–86 of `e2w.py`): validate the
identity columns, validate that score columns exist, then process the rows. -/
def generate_missed_homework_report (df : Dataset) (cfg : Config) :
    Except E2WError (List StudentRecord) :=
  if (missingCols df cfg).isEmpty then
    if (scoreColumnsOf df cfg).isEmpty then
      .error (.noAssignmentColumns cfg.scoresStartIndex)
    else
      .ok (processRows df.columns (scoreColumnsOf df cfg) cfg df.rows)
  else
    .error (.missingColumns (sortStrings (missingCols df cfg)))

/-- One row of the mail-merge table built by `build_mail_merge_dataframe`. -/
structure MailMergeRow where
  FirstName : String
  Email : String
  MissedHomeworks : String
deriving DecidableEq, Repr

/-- `build_mail_merge_dataframe` (lines 7–21 of `e2w.py`).  `name.split()[0]`
raises `IndexError` when the name has no whitespace-delimited token, embedded
here as `none`. -/
def build_mail_merge_dataframe : List StudentRecord → Option (List MailMergeRow)
  | [] => some []
  | r :: rest =>
    match pySplit r.name with
    | [] => none
    | t :: _ =>
      match build_mail_merge_dataframe rest with
      | none => none
      | some rows =>
        some ({ FirstName := t, Email := r.email,
                MissedHomeworks := pyJoin "\n" r.missed } :: rows)

/-- The default configuration of the `e2w.py` keyword parameters. -/
def defaultConfig : Config :=
  { firstNameCol := "First Name", lastNameCol := "Last Name"
    groupCol := "Group", emailCol := "Email", scoresStartIndex := 4 }

/-- A block element of the generated Word document: `add_heading`,
`add_paragraph`, or `add_paragraph(..., style='ListBullet')`. -/
inductive DocBlock where
  | heading (level : Nat) (text : String)
  | para (text : String)
  | bullet (text : String)
deriving DecidableEq, Repr

/-- `build_word_report_bytes` (lines 89–109 of `e2w.py`), abstracting the
docx byte serialization as the ordered list of blocks added to the document.
The `group` value is rendered through the f-string, i.e. Python `str`. -/
def build_word_report_bytes (records : List StudentRecord) (title : String) :
    List DocBlock :=
  let doc := [DocBlock.heading 0 title]
  if records.isEmpty then
    doc ++ [DocBlock.para "No students with missed homework were found."]
  else
    records.foldl
      (fun d r =>
        let d := d ++
          [DocBlock.heading 1 (r.name ++ ", " ++ pyStr r.group ++ ", " ++ r.email)]
        r.missed.foldl (fun d a => d ++ [DocBlock.bullet (" " ++ a)]) d)
      doc

/-- Double every double-quote character of a character list (CSV quote
escaping). -/
def dupQuotes : List Char → List Char
  | [] => []
  | c :: rest =>
    if c = '"' then '"' :: '"' :: dupQuotes rest else c :: dupQuotes rest

/-- One CSV field under `csv.QUOTE_ALL`: wrap in double quotes, doubling any
embedded double quote. -/
def csvQuoteField (s : String) : String :=
  "\"" ++ String.mk (dupQuotes s.data) ++ "\""

/-- One CSV line under `csv.QUOTE_ALL`: all fields quoted, comma-separated. -/
def csvLine (fields : List String) : String :=
  pyJoin "," (fields.map csvQuoteField)

/-- Concatenation of a list of strings. -/
def concatStrings : List String → String
  | [] => ""
  | s :: rest => s ++ concatStrings rest

/-- The mail-merge CSV text produced at lines 217–220 of `e2w.py`:
`mail_df.to_csv(index=False, quoting=csv.QUOTE_ALL).encode("utf-8-sig")`.
The `utf-8-sig` byte-order mark is modelled as the leading U+FEFF character
(whose UTF-8 encoding is the three BOM bytes); each line, the header
included, ends with a newline as pandas `to_csv` emits it. -/
def mailMergeCsv (rows : List MailMergeRow) : String :=
  ("\uFEFF" ++ csvLine ["FirstName", "Email", "MissedHomeworks"] ++ "\n") ++
    concatStrings
      (rows.map (fun r => csvLine [r.FirstName, r.Email, r.MissedHomeworks] ++ "\n"))

/-- Modelled from the spec: the field scanner of "a standard
quoted-CSV-with-embedded-newlines parser" (§8).  Having consumed an opening
quote, read characters up to the closing quote, interpreting a doubled quote
as a literal quote; returns the field text and the remaining input. -/
def parseQuotedField : List Char → String → Option (String × List Char)
  | [], _ => none
  | '"' :: rest, acc =>
    match rest with
    | '"' :: rest2 => parseQuotedField rest2 (acc.push '"')
    | _ => some (acc, rest)
  | c :: rest, acc => parseQuotedField rest (acc.push c)

/-- Modelled from the spec: one record of the standard quoted-CSV parser —
quoted fields separated by commas.  Fuel bounds the recursion. -/
def parseRecordFields (fuel : Nat) (l : List Char) :
    Option (List String × List Char) :=
  match fuel with
  | 0 => none
  | fuel + 1 =>
    match l with
    | '"' :: rest =>
      match parseQuotedField rest "" with
      | none => none
      | some (f, rest2) =>
        match rest2 with
        | ',' :: rest3 =>
          match parseRecordFields fuel rest3 with
          | none => none
          | some (fs, rest4) => some (f :: fs, rest4)
        | _ => some ([f], rest2)
    | _ => none

/-- Modelled from the spec: the record loop of the standard quoted-CSV
parser — records separated by newlines, with a trailing newline allowed. -/
def parseCsvAux (fuel : Nat) (l : List Char) : Option (List (List String)) :=
  match fuel with
  | 0 => none
  | fuel + 1 =>
    match l with
    | [] => some []
    | _ =>
      match parseRecordFields (l.length + 1) l with
      | none => none
      | some (fs, rest) =>
        match rest with
        | '\n' :: rest2 => (parseCsvAux fuel rest2).map (fs :: ·)
        | [] => some [fs]
        | _ => none

/-- Modelled from the spec: "a standard quoted-CSV-with-embedded-newlines
parser" applied to a whole text. -/
def parseCsv (s : String) : Option (List (List String)) :=
  parseCsvAux (s.length + 1) s.data

/-- Drop a leading U+FEFF byte-order mark, if present. -/
def dropBom (s : String) : String :=
  match s.data with
  | c :: rest => if c = '\uFEFF' then String.mk rest else s
  | [] => s

/-- Recognizer of the no-assignment-columns failure outcome. -/
def isNoAssignError : Except E2WError (List StudentRecord) → Bool
  | .error (.noAssignmentColumns _) => true
  | _ => false

/-! ## Helper lemmas -/

theorem isMiss_iff (v : Value) :
    isMiss v = true ↔ v ≠ Value.missing ∧ v = Value.num 0 := by
  cases v <;> simp [isMiss, pyNotna, pyEqZero]

theorem processRows_eq (cols sc : List String) (cfg : Config)
    (rows : List (List Value)) :
    processRows cols sc cfg rows =
      (rows.map (rowRecord cols sc cfg)).filter (fun r => !r.missed.isEmpty) := by
  induction rows with
  | nil => rfl
  | cons row rest ih =>
    simp only [processRows, List.map_cons, List.filter_cons, ih]
    cases h : (rowRecord cols sc cfg row).missed.isEmpty <;> simp [h]

theorem mem_insertSorted (x y : String) (l : List String) :
    y ∈ insertSorted x l ↔ y = x ∨ y ∈ l := by
  induction l with
  | nil => simp [insertSorted]
  | cons z zs ih =>
    simp only [insertSorted]
    split
    · simp
    · simp only [List.mem_cons, ih]
      tauto

theorem mem_sortStrings (y : String) (l : List String) :
    y ∈ sortStrings l ↔ y ∈ l := by
  induction l with
  | nil => simp [sortStrings]
  | cons x xs ih => simp [sortStrings, mem_insertSorted, ih]

theorem mem_missingCols (df : Dataset) (cfg : Config) (c : String) :
    c ∈ missingCols df cfg ↔
      c ∈ [cfg.firstNameCol, cfg.lastNameCol, cfg.groupCol, cfg.emailCol] ∧
        c ∉ df.columns := by
  simp [missingCols, requiredCols, List.mem_filter, List.mem_dedup]

theorem gen_ok_iff (df : Dataset) (cfg : Config) (recs : List StudentRecord) :
    generate_missed_homework_report df cfg = .ok recs ↔
      (missingCols df cfg).isEmpty = true ∧
        (scoreColumnsOf df cfg).isEmpty = false ∧
        recs = processRows df.columns (scoreColumnsOf df cfg) cfg df.rows := by
  unfold generate_missed_homework_report
  split
  · rename_i h1
    split
    · rename_i h2
      simp [h1, h2]
    · rename_i h2
      rw [Bool.not_eq_true] at h2
      simp only [Except.ok.injEq, h1, h2, true_and]
      exact eq_comm
  · rename_i h1
    rw [Bool.not_eq_true] at h1
    simp [h1]

theorem missingCols_empty_of_present (df : Dataset) (cfg : Config)
    (hcols : ∀ c ∈ [cfg.firstNameCol, cfg.lastNameCol, cfg.groupCol, cfg.emailCol],
      c ∈ df.columns) :
    missingCols df cfg = [] := by
  rw [missingCols, List.filter_eq_nil_iff]
  intro c hc
  simp only [requiredCols, List.mem_dedup] at hc
  simp [hcols c hc]

/-- Shared validation fact: when the identity columns are all present and the
score-column slice is empty, the extractor reports the no-assignment-columns
error. -/
theorem gen_noassign_of_present (df : Dataset) (cfg : Config)
    (hcols : ∀ c ∈ [cfg.firstNameCol, cfg.lastNameCol, cfg.groupCol, cfg.emailCol],
      c ∈ df.columns)
    (hempty : df.columns.drop cfg.scoresStartIndex = []) :
    generate_missed_homework_report df cfg =
      .error (.noAssignmentColumns cfg.scoresStartIndex) := by
  unfold generate_missed_homework_report
  rw [missingCols_empty_of_present df cfg hcols]
  simp [scoreColumnsOf, hempty]

theorem rowRecord_missed (cols sc : List String) (cfg : Config) (row : List Value) :
    (rowRecord cols sc cfg row).missed =
      sc.filter (fun c => isMiss (cellValue cols row c)) := rfl

/-! ## Example data -/

/-- The §8 example dataset, adjusted so that the single row holds both a
blank (`HW1`) and a zero (`HW2`) score. -/
def blankZeroDf : Dataset :=
  { columns := ["First Name", "Last Name", "Group", "Email", "HW1", "HW2"]
    rows := [[.str "Ann", .str "Lee", .num 1, .str "a@e.edu", .missing, .num 0]] }

/-- The extractor output on `blankZeroDf` with the default configuration. -/
def blankZeroRecs : List StudentRecord :=
  [{ name := "Ann Lee", group := .num 1, email := "a@e.edu", missed := ["HW2"] }]

/-! ## Claims -/

/-- C1: for every dataset, config and row, a score column (at or after
`scoresStartIndex`) is in that row's `missed` iff its value is present (not
the missing marker) and numerically equal to zero; and on a concrete row
holding both a blank `HW1` and a zero `HW2`, only `HW2` is missed, so blank
and zero columns of one row are judged independently. -/
theorem C1_miss_characterization :
    (∀ (df : Dataset) (cfg : Config) (row : List Value) (c : String),
      c ∈ (rowRecord df.columns (scoreColumnsOf df cfg) cfg row).missed ↔
        c ∈ scoreColumnsOf df cfg ∧
          cellValue df.columns row c ≠ Value.missing ∧
          cellValue df.columns row c = Value.num 0) ∧
    generate_missed_homework_report blankZeroDf defaultConfig =
      .ok [{ name := "Ann Lee", group := .num 1, email := "a@e.edu",
             missed := ["HW2"] }] := by
  constructor
  · intro df cfg row c
    rw [rowRecord_missed, List.mem_filter]
    exact and_congr_right fun _ => isMiss_iff _
  · rfl

/-- C2: on success the extractor returns exactly the records of the rows
whose `missed` list is non-empty, in input row order; every record's `missed`
is a sublist of the score columns (left-to-right column order preserved); and
if no row has a score-column value of exactly zero, the result is empty. -/
theorem C2_output_shape (df : Dataset) (cfg : Config) (recs : List StudentRecord)
    (h : generate_missed_homework_report df cfg = .ok recs) :
    recs = (df.rows.map (rowRecord df.columns (scoreColumnsOf df cfg) cfg)).filter
        (fun r => !r.missed.isEmpty) ∧
    (∀ r ∈ recs, List.Sublist r.missed (scoreColumnsOf df cfg)) ∧
    ((∀ row ∈ df.rows, ∀ c ∈ scoreColumnsOf df cfg,
        cellValue df.columns row c ≠ Value.num 0) → recs = []) := by
  obtain ⟨-, -, h3⟩ := (gen_ok_iff df cfg recs).1 h
  refine ⟨?_, ?_, ?_⟩
  · rw [h3, processRows_eq]
  · intro r hr
    rw [h3, processRows_eq] at hr
    obtain ⟨hr1, -⟩ := List.mem_filter.1 hr
    obtain ⟨row, -, rfl⟩ := List.mem_map.1 hr1
    rw [rowRecord_missed]
    exact List.filter_sublist _
  · intro hz
    rw [h3, processRows_eq, List.filter_eq_nil_iff]
    intro r hr
    obtain ⟨row, hrow, rfl⟩ := List.mem_map.1 hr
    have hmze : (rowRecord df.columns (scoreColumnsOf df cfg) cfg row).missed = [] := by
      rw [rowRecord_missed, List.filter_eq_nil_iff]
      intro c hc hm
      exact hz row hrow c hc ((isMiss_iff _).1 hm).2
    simp [hmze]

/-- Closed instance of `C2_output_shape` at the blank-and-zero example. -/
theorem C2_output_shape_witness :
    blankZeroRecs =
      (blankZeroDf.rows.map
        (rowRecord blankZeroDf.columns (scoreColumnsOf blankZeroDf defaultConfig)
          defaultConfig)).filter (fun r => !r.missed.isEmpty) ∧
    (∀ r ∈ blankZeroRecs,
      List.Sublist r.missed (scoreColumnsOf blankZeroDf defaultConfig)) ∧
    ((∀ row ∈ blankZeroDf.rows, ∀ c ∈ scoreColumnsOf blankZeroDf defaultConfig,
        cellValue blankZeroDf.columns row c ≠ Value.num 0) → blankZeroRecs = []) :=
  C2_output_shape blankZeroDf defaultConfig blankZeroRecs rfl

/-- C9: the extractor is deterministic in its two inputs — two invocations
on the same dataset and configuration return the same output (the embedding
is a pure function, so equality of inputs gives equality of outputs). -/
theorem C9_deterministic (df₁ df₂ : Dataset) (cfg₁ cfg₂ : Config)
    (hdf : df₁ = df₂) (hcfg : cfg₁ = cfg₂) :
    generate_missed_homework_report df₁ cfg₁ =
      generate_missed_homework_report df₂ cfg₂ := by
  rw [hdf, hcfg]

/-- Closed instance of `C9_deterministic` at the blank-and-zero example. -/
theorem C9_deterministic_witness :
    generate_missed_homework_report blankZeroDf defaultConfig =
      generate_missed_homework_report blankZeroDf defaultConfig :=
  C9_deterministic blankZeroDf blankZeroDf defaultConfig defaultConfig rfl rfl

/-- C3: whenever some configured identity column is absent from the dataset,
the extractor fails with the missing-columns error, the error's list holds
exactly the absent configured names (all of them, not just the first), and
the outcome is independent of the dataset's rows, so no record is produced. -/
theorem C3_missing_columns (df : Dataset) (cfg : Config)
    (h : ∃ c, c ∈ [cfg.firstNameCol, cfg.lastNameCol, cfg.groupCol, cfg.emailCol] ∧
      c ∉ df.columns) :
    ∃ ms, generate_missed_homework_report df cfg = .error (.missingColumns ms) ∧
      (∀ c, c ∈ ms ↔
        c ∈ [cfg.firstNameCol, cfg.lastNameCol, cfg.groupCol, cfg.emailCol] ∧
          c ∉ df.columns) ∧
      generate_missed_homework_report df cfg =
        generate_missed_homework_report { columns := df.columns, rows := [] } cfg := by
  obtain ⟨c, hc, habs⟩ := h
  have hne : missingCols df cfg ≠ [] := by
    intro hnil
    have : c ∈ missingCols df cfg := (mem_missingCols df cfg c).2 ⟨hc, habs⟩
    rw [hnil] at this
    cases this
  have hemp : (missingCols df cfg).isEmpty = false := by
    cases hval : (missingCols df cfg).isEmpty
    · rfl
    · exact absurd (List.isEmpty_iff.1 hval) hne
  refine ⟨sortStrings (missingCols df cfg), ?_, ?_, ?_⟩
  · unfold generate_missed_homework_report
    rw [hemp]
    simp
  · intro d
    rw [mem_sortStrings, mem_missingCols]
  · have hsame : missingCols { columns := df.columns, rows := [] } cfg =
        missingCols df cfg := rfl
    unfold generate_missed_homework_report
    rw [hemp, hsame, hemp]
    simp

/-- Example input of C3's witness: a dataset whose columns lack both the
configured last-name and email columns. -/
def twoMissingDf : Dataset :=
  { columns := ["First Name", "Group", "HW1"], rows := [] }

/-- Closed instance of `C3_missing_columns`: with `Last Name` and `Email`
both absent, the error enumerates exactly the two of them. -/
theorem C3_missing_columns_witness :
    ∃ ms, generate_missed_homework_report twoMissingDf defaultConfig =
        .error (.missingColumns ms) ∧
      (∀ c, c ∈ ms ↔
        c ∈ [defaultConfig.firstNameCol, defaultConfig.lastNameCol,
             defaultConfig.groupCol, defaultConfig.emailCol] ∧
          c ∉ twoMissingDf.columns) ∧
      generate_missed_homework_report twoMissingDf defaultConfig =
        generate_missed_homework_report
          { columns := twoMissingDf.columns, rows := [] } defaultConfig :=
  C3_missing_columns twoMissingDf defaultConfig ⟨"Email", by decide, by decide⟩

/-- Counterexample input of C4: one unrelated column, `scoresStartIndex = 1`,
so the slice is empty — but the identity columns are absent too. -/
def cex4Df : Dataset := { columns := ["A"], rows := [] }

/-- The C4 counterexample configuration. -/
def cex4Cfg : Config := { defaultConfig with scoresStartIndex := 1 }

/-- C4 as stated is false: at `cex4Df`/`cex4Cfg` the score-column slice is
empty, yet the extractor fails with the missing-columns error (the identity
check runs first), not the no-assignment-columns error. -/
theorem C4_counterexample :
    scoreColumnsOf cex4Df cex4Cfg = [] ∧
    generate_missed_homework_report cex4Df cex4Cfg =
      .error (.missingColumns ["Email", "First Name", "Group", "Last Name"]) ∧
    isNoAssignError (generate_missed_homework_report cex4Df cex4Cfg) = false :=
  ⟨rfl, rfl, rfl⟩

/-- C4 (amended): provided every configured identity column is present, an
empty score-column slice makes the extractor fail with the
no-assignment-columns error (and hence produce no records). -/
theorem C4_no_assignment_columns (df : Dataset) (cfg : Config)
    (hcols : ∀ c ∈ [cfg.firstNameCol, cfg.lastNameCol, cfg.groupCol, cfg.emailCol],
      c ∈ df.columns)
    (hempty : df.columns.drop cfg.scoresStartIndex = []) :
    generate_missed_homework_report df cfg =
      .error (.noAssignmentColumns cfg.scoresStartIndex) :=
  gen_noassign_of_present df cfg hcols hempty

/-- Closed instance of `C4_no_assignment_columns`: four identity columns,
`scoresStartIndex = 4` equal to the column count. -/
theorem C4_no_assignment_columns_witness :
    generate_missed_homework_report
      { columns := ["First Name", "Last Name", "Group", "Email"], rows := [] }
      defaultConfig =
      .error (.noAssignmentColumns defaultConfig.scoresStartIndex) :=
  C4_no_assignment_columns
    { columns := ["First Name", "Last Name", "Group", "Email"], rows := [] }
    defaultConfig (by decide) (by decide)

/-- Counterexample input of C10: two columns, `scoresStartIndex = 5` strictly
above the column count — and the identity columns absent. -/
def cex10Df : Dataset := { columns := ["X", "Y"], rows := [] }

/-- The C10 counterexample configuration. -/
def cex10Cfg : Config := { defaultConfig with scoresStartIndex := 5 }

/-- C10 as stated is false: at `cex10Df`/`cex10Cfg` the start index exceeds
the column count, yet the extractor reports the missing-columns error, not
the no-assignment-columns one (the identity check runs first). -/
theorem C10_counterexample :
    cex10Df.columns.length ≤ cex10Cfg.scoresStartIndex ∧
    generate_missed_homework_report cex10Df cex10Cfg =
      .error (.missingColumns ["Email", "First Name", "Group", "Last Name"]) ∧
    isNoAssignError (generate_missed_homework_report cex10Df cex10Cfg) = false :=
  ⟨by decide, rfl, rfl⟩

/-- C10 (amended): the slice is total — provided the identity columns are
present, every `scoresStartIndex` at or above the column count (also strictly
above, outside the spec's stated invariant) yields the no-assignment-columns
error rather than any other failure. -/
theorem C10_total_slice (df : Dataset) (cfg : Config)
    (hcols : ∀ c ∈ [cfg.firstNameCol, cfg.lastNameCol, cfg.groupCol, cfg.emailCol],
      c ∈ df.columns)
    (hge : df.columns.length ≤ cfg.scoresStartIndex) :
    generate_missed_homework_report df cfg =
      .error (.noAssignmentColumns cfg.scoresStartIndex) :=
  gen_noassign_of_present df cfg hcols (List.drop_eq_nil_of_le hge)

/-- Closed instance of `C10_total_slice`: four columns, start index 7. -/
theorem C10_total_slice_witness :
    generate_missed_homework_report
      { columns := ["First Name", "Last Name", "Group", "Email"], rows := [] }
      { defaultConfig with scoresStartIndex := 7 } =
      .error (.noAssignmentColumns
        ({ defaultConfig with scoresStartIndex := 7 } : Config).scoresStartIndex) :=
  C10_total_slice
    { columns := ["First Name", "Last Name", "Group", "Email"], rows := [] }
    { defaultConfig with scoresStartIndex := 7 } (by decide) (by decide)

/-- Counterexample input of C5: both name cells hold the missing marker. -/
def cex5Df : Dataset :=
  { columns := ["First Name", "Last Name", "Group", "Email", "HW1"]
    rows := [[.missing, .missing, .num 1, .str "a@e.edu", .num 0]] }

/-- C5 as stated is false: a row with both name values absent does not yield
an empty `name` — Python stringification renders the missing marker as the
text `nan`, so the name is `nan nan`. -/
theorem C5_counterexample :
    generate_missed_homework_report cex5Df defaultConfig =
      .ok [{ name := "nan nan", group := .num 1, email := "a@e.edu",
             missed := ["HW1"] }] ∧
    "nan nan" ≠ "" :=
  ⟨rfl, by decide⟩

/-- C5 (amended): `name` is the trimmed stringified first-name value, a
space, and the trimmed stringified last-name value, with an overall trim —
where a blank string yields an empty token, but an absent value stringifies
to the token `nan` (so two blank names give an empty `name`, two absent
names give `nan nan`). -/
theorem C5_name_computation :
    (∀ (cols sc : List String) (cfg : Config) (row : List Value),
      (rowRecord cols sc cfg row).name =
        pyStrip (pyStrip (pyStr (cellValue cols row cfg.firstNameCol)) ++ " " ++
          pyStrip (pyStr (cellValue cols row cfg.lastNameCol)))) ∧
    (∀ fv lv g e : Value,
      generate_missed_homework_report
        { columns := ["First Name", "Last Name", "Group", "Email", "HW1"]
          rows := [[fv, lv, g, e, .num 0]] } defaultConfig =
        .ok [{ name := pyStrip (pyStrip (pyStr fv) ++ " " ++ pyStrip (pyStr lv)),
               group := g, email := pyStrip (pyStr e), missed := ["HW1"] }]) ∧
    generate_missed_homework_report
      { columns := ["First Name", "Last Name", "Group", "Email", "HW1"]
        rows := [[.str "", .str "", .num 1, .str "a@e.edu", .num 0]] }
      defaultConfig =
      .ok [{ name := "", group := .num 1, email := "a@e.edu",
             missed := ["HW1"] }] :=
  ⟨fun _ _ _ _ => rfl, fun _ _ _ _ => rfl, rfl⟩

/-- C6 as stated is false: a StudentRecord whose `name` has no
whitespace-delimited token (here the empty name) makes
`build_mail_merge_dataframe` fail (`name.split()[0]` raises `IndexError`)
instead of emitting one MailMergeRow for the record. -/
theorem C6_counterexample :
    build_mail_merge_dataframe
      [{ name := "", group := .num 1, email := "a@e.edu", missed := ["HW1"] }] =
      none := rfl

/-- The MailMergeRow derived from one StudentRecord: first whitespace token
of the name, the email, and the `missed` entries joined by newlines. -/
def mailRowOf (r : StudentRecord) : MailMergeRow :=
  { FirstName := (pySplit r.name).headD "", Email := r.email,
    MissedHomeworks := pyJoin "\n" r.missed }

/-- C6 (amended): provided every record's name has at least one
whitespace-delimited token, `build_mail_merge_dataframe` emits exactly one
MailMergeRow per record, in input order, with the first name token, the
email, and the newline-joined `missed` list. -/
theorem C6_mail_merge_rows (records : List StudentRecord)
    (h : ∀ r ∈ records, pySplit r.name ≠ []) :
    build_mail_merge_dataframe records = some (records.map mailRowOf) := by
  induction records with
  | nil => rfl
  | cons r rest ih =>
    have hr : pySplit r.name ≠ [] := h r (List.mem_cons_self r rest)
    have hrest := ih (fun x hx => h x (List.mem_cons_of_mem r hx))
    simp only [build_mail_merge_dataframe]
    cases hsp : pySplit r.name with
    | nil => exact absurd hsp hr
    | cons t ts =>
      rw [hrest]
      simp [mailRowOf, hsp]

/-- Closed instance of `C6_mail_merge_rows` at the blank-and-zero example. -/
theorem C6_mail_merge_rows_witness :
    build_mail_merge_dataframe blankZeroRecs = some (blankZeroRecs.map mailRowOf) :=
  C6_mail_merge_rows blankZeroRecs (by decide)

/-- The document blocks of one student: the section heading
`name, group, email` and one bullet per missed assignment, each with a
leading space. -/
def studentBlocks (r : StudentRecord) : List DocBlock :=
  DocBlock.heading 1 (r.name ++ ", " ++ pyStr r.group ++ ", " ++ r.email) ::
    r.missed.map (fun a => DocBlock.bullet (" " ++ a))

theorem bullets_foldl (l : List String) (d : List DocBlock) :
    l.foldl (fun d a => d ++ [DocBlock.bullet (" " ++ a)]) d =
      d ++ l.map (fun a => DocBlock.bullet (" " ++ a)) := by
  induction l generalizing d with
  | nil => simp
  | cons a rest ih => simp [ih]

theorem word_report_foldl (records : List StudentRecord) (d : List DocBlock) :
    records.foldl
      (fun d r =>
        let d := d ++
          [DocBlock.heading 1 (r.name ++ ", " ++ pyStr r.group ++ ", " ++ r.email)]
        r.missed.foldl (fun d a => d ++ [DocBlock.bullet (" " ++ a)]) d) d =
      d ++ records.flatMap studentBlocks := by
  induction records generalizing d with
  | nil => simp
  | cons r rest ih =>
    simp only [List.foldl_cons]
    rw [bullets_foldl, ih]
    simp [studentBlocks]

/-- C7: the rendered document is the title heading, then — if there are no
records — the single informational paragraph (and no per-student headings),
otherwise, per record in input order, the heading `name, group, email`
followed by one bullet per `missed` entry, in order, each with a leading
space before the assignment name. -/
theorem C7_document_structure (records : List StudentRecord) (title : String) :
    build_word_report_bytes records title =
      DocBlock.heading 0 title ::
        (if records.isEmpty then
          [DocBlock.para "No students with missed homework were found."]
        else records.flatMap studentBlocks) := by
  cases records with
  | nil => rfl
  | cons r rest =>
    exact word_report_foldl (r :: rest) [DocBlock.heading 0 title]

/-- The round-trip example row of C8. -/
def demoMailRow : MailMergeRow :=
  { FirstName := "Ann", Email := "a@e.edu",
    MissedHomeworks := pyJoin "\n" ["HW1", "HW3"] }

/-- C8: the CSV export starts with the byte-order mark followed by the
all-quoted header row; the row whose `missed` is `HW1`, `HW3` carries the
field `HW1`, newline, `HW3`; and the standard quoted-CSV parser reconstructs
the header fields and exactly that field from the export. -/
theorem C8_csv_roundtrip :
    (∀ rows : List MailMergeRow, ∃ rest,
      mailMergeCsv rows =
        "\uFEFF\"FirstName\",\"Email\",\"MissedHomeworks\"\n" ++ rest) ∧
    demoMailRow.MissedHomeworks = "HW1\nHW3" ∧
    parseCsv (dropBom (mailMergeCsv [demoMailRow])) =
      some [["FirstName", "Email", "MissedHomeworks"],
            ["Ann", "a@e.edu", "HW1\nHW3"]] :=
  ⟨fun _ => ⟨_, rfl⟩, rfl, rfl⟩
